import Mathlib

/-!
Shallow embedding of `src/src/ThingsBoard.h` (ThingsBoard Arduino MQTT SDK).

The JSON encoding layer (ArduinoJson 6) and the transports (PubSubClient,
ArduinoHttpClient) are external collaborators of the code under
verification; they are modelled here exactly as far as the code uses them:

* a `StaticJsonDocument` with a `JSON_OBJECT_SIZE(n)` pool is a
  fixed-capacity slot store for the members of a single-level object
  (`JDoc`); `variant[key] = v` converts a null root to an object and adds
  or overwrites a member, reporting failure when the pool is exhausted;
  `variant.set(scalar)` replaces the root by the scalar and succeeds for
  all scalar kinds stored by `Telemetry`;
* `measureJson` / `serializeJson` render compact JSON; a document whose
  root was only initialised by `to<JsonVariant>()` renders as `null`;
* the transport's `publish` / HTTP post is an oracle function passed in as
  a parameter, and its calls are recorded in the operation's result.

The documents this code builds are single-level objects of scalars, so
JSON values are modelled as scalars plus one level of object members.
The `float` payload of a telemetry record is carried opaquely as the
decimal text it would render to; no claim depends on float arithmetic.
-/

namespace TB

/-- Scalar JSON value as stored by the code's documents. The `jreal` text
is the rendered decimal form, carried opaquely. -/
inductive JVal where
  | jnull
  | jbool (b : Bool)
  | jint (i : Int)
  | jreal (text : String)
  | jstr (s : String)
deriving DecidableEq

/-- Root of an ArduinoJson document: a scalar value (`to<JsonVariant>()`
initialises it to null) or a single-level object. -/
inductive JRoot where
  | value (v : JVal)
  | obj (members : List (String × JVal))
deriving DecidableEq

/-- A `StaticJsonDocument` with a `JSON_OBJECT_SIZE(capacity)` pool. -/
structure JDoc where
  capacity : Nat
  root : JRoot
deriving DecidableEq

/-- `doc.to<JsonVariant>()`: fresh document with a null root. -/
def freshDoc (cap : Nat) : JDoc := ⟨cap, JRoot.value JVal.jnull⟩

/-- `jsonObj[key] = v` (ArduinoJson `getOrAddMember` + set): converts a
null root to an object; overwrites an existing member in place, appends a
new member while the pool has a free slot, and reports failure (leaving
the document unchanged) when the pool is exhausted or the root is a
non-null scalar. -/
def JDoc.assign (d : JDoc) (k : String) (v : JVal) : JDoc × Bool :=
  match d.root with
  | JRoot.obj ms =>
    if ms.any (fun p => p.1 == k) then
      (⟨d.capacity, JRoot.obj (ms.map (fun p => if p.1 == k then (k, v) else p))⟩, true)
    else if ms.length < d.capacity then
      (⟨d.capacity, JRoot.obj (ms ++ [(k, v)])⟩, true)
    else (d, false)
  | JRoot.value JVal.jnull =>
    if 0 < d.capacity then (⟨d.capacity, JRoot.obj [(k, v)]⟩, true) else (d, false)
  | JRoot.value _ => (d, false)

/-- `jsonObj.set(scalar)`: the root variant becomes the scalar; succeeds
for every scalar kind a `Telemetry` record can hold. -/
def JDoc.setScalar (d : JDoc) (v : JVal) : JDoc × Bool :=
  (⟨d.capacity, JRoot.value v⟩, true)

/-- ArduinoJson member lookup `data[key]` on the decoded document: first
member with that key; nothing when the root is not an object. -/
def JRoot.member (r : JRoot) (k : String) : Option JVal :=
  match r with
  | JRoot.obj ms => (ms.find? (fun p => p.1 == k)).map (fun p => p.2)
  | JRoot.value _ => none

/-- ArduinoJson string escaping (`TextFormatter::writeChar`): escapes the
quote, backslash and the five short control escapes; every other
character is written as-is. -/
def escChar (c : Char) : String :=
  if c = '"' then "\\\""
  else if c = '\\' then "\\\\"
  else if c = '\x08' then "\\b"
  else if c = '\x0c' then "\\f"
  else if c = '\n' then "\\n"
  else if c = '\r' then "\\r"
  else if c = '\t' then "\\t"
  else String.singleton c

/-- Quoted, escaped JSON string. -/
def jsonQuote (s : String) : String :=
  "\"" ++ String.join (s.data.map escChar) ++ "\""

/-- Compact rendering of one scalar, as ArduinoJson's serializer writes it. -/
def serializeJVal : JVal → String
  | JVal.jnull => "null"
  | JVal.jbool true => "true"
  | JVal.jbool false => "false"
  | JVal.jint i => toString i
  | JVal.jreal t => t
  | JVal.jstr s => jsonQuote s

/-- Compact rendering of an object's member list, in insertion order. -/
def serializeMembers : List (String × JVal) → String
  | [] => ""
  | [(k, v)] => jsonQuote k ++ ":" ++ serializeJVal v
  | (k, v) :: m :: rest =>
      jsonQuote k ++ ":" ++ serializeJVal v ++ "," ++ serializeMembers (m :: rest)

/-- Compact rendering of the document root (`serializeJson`); a root that
is still null renders as `null`. -/
def JRoot.serialize : JRoot → String
  | JRoot.value v => serializeJVal v
  | JRoot.obj ms => "\x7b" ++ serializeMembers ms ++ "\x7d"

/-- `measureJson`: rendered byte length, terminator excluded. -/
def measureJson (d : JDoc) : Nat := d.root.serialize.length

/-- The active member of the `Telemetry::data` union together with the
`dataType` tag (the constructors keep tag and payload consistent, as the
C++ constructors do). -/
inductive TValue where
  | tnone
  | tbool (b : Bool)
  | tint (i : Int)
  | treal (text : String)
  | tstr (s : String)
deriving DecidableEq

/-- A `Telemetry` record: optional key (`m_key`, a possibly-null
`const char*`) and tagged value. -/
structure Telemetry where
  m_key : Option String
  m_value : TValue
deriving DecidableEq

/-- `Telemetry::serializeKeyval(JsonVariant&)`, lines 97-131 of
`ThingsBoard.h`. With a key, the member assignment is performed and its
success flag is discarded: every `case` ends in `break` and the function
falls through to `return true`. Without a key, the root is set to the
scalar and `set`'s flag is returned. `TYPE_NONE` hits the `default`
branch and returns true. -/
def Telemetry.serializeKeyval (t : Telemetry) (d : JDoc) : JDoc × Bool :=
  match t.m_key with
  | some key =>
    match t.m_value with
    | TValue.tbool b => ((d.assign key (JVal.jbool b)).1, true)
    | TValue.tint i => ((d.assign key (JVal.jint i)).1, true)
    | TValue.treal x => ((d.assign key (JVal.jreal x)).1, true)
    | TValue.tstr s => ((d.assign key (JVal.jstr s)).1, true)
    | TValue.tnone => (d, true)
  | none =>
    match t.m_value with
    | TValue.tbool b => d.setScalar (JVal.jbool b)
    | TValue.tint i => d.setScalar (JVal.jint i)
    | TValue.treal x => d.setScalar (JVal.jreal x)
    | TValue.tstr s => d.setScalar (JVal.jstr s)
    | TValue.tnone => (d, true)

/-- Does `pat` occur at the head of `s`? -/
def leadsWith : List Char → List Char → Bool
  | [], _ => true
  | _ :: _, [] => false
  | a :: as, b :: bs => a == b && leadsWith as bs

/-- One pass of Arduino `String::replace`: scan left to right, replace
each non-overlapping occurrence of `find` and continue after the
replacement text. Structural on the fuel, which the caller sets to the
string length (each step consumes at least one source character because
`find` is nonempty at every call site). -/
def replaceFuel (find repl : List Char) : Nat → List Char → List Char
  | 0, s => s
  | _ + 1, [] => []
  | fuel + 1, c :: rest =>
    if leadsWith find (c :: rest) then
      repl ++ replaceFuel find repl fuel (List.drop find.length (c :: rest))
    else
      c :: replaceFuel find repl fuel rest

/-- Arduino `String::replace(find, repl)` as used at line 365 of
`ThingsBoard.h`: a no-op on an empty string or pattern, otherwise every
non-overlapping occurrence is replaced. (Arduino replaces back to front
when the replacement is longer, which coincides with the front-to-back
scan for any pattern that cannot overlap itself or a replacement edge;
`"request"` / `"response"` is such a pair.) -/
def stringReplaceAll (s find repl : String) : String :=
  if s.length = 0 || find.length = 0 then s
  else String.mk (replaceFuel find.data repl.data s.length s.data)

/-- Modelled from the spec: "substituting the literal request-marker
segment of the inbound channel identifier with the corresponding
reply-marker segment (first occurrence only), preserving the remainder
unchanged". Replaces only the first occurrence, for comparison with the
code's `stringReplaceAll`. -/
def replaceFirstFuel (find repl : List Char) : Nat → List Char → List Char
  | 0, s => s
  | _ + 1, [] => []
  | fuel + 1, c :: rest =>
    if leadsWith find (c :: rest) then
      repl ++ List.drop find.length (c :: rest)
    else
      c :: replaceFirstFuel find repl fuel rest

/-- Modelled from the spec: first-occurrence-only substitution on strings
(the spec's description of the reply-channel derivation). -/
def replaceFirstSpec (s find repl : String) : String :=
  if s.length = 0 || find.length = 0 then s
  else String.mk (replaceFirstFuel find.data repl.data s.length s.data)

/-- Result of a send operation: the boolean the function returns, and the
transport call it performed (channel or path, payload), if any. -/
structure SendResult where
  ok : Bool
  published : Option (String × String)
deriving DecidableEq

/-- `"v1/devices/me/telemetry"`, the telemetry publish channel. -/
def telemetryTopic : String := "v1/devices/me/telemetry"

/-- `"v1/devices/me/attributes"`, the attribute publish channel. -/
def attributeTopic : String := "v1/devices/me/attributes"

/-- Channel chosen by the `telemetry ? sendTelemetryJson : sendAttributeJSON`
dispatch at the end of the MQTT send paths. -/
def sendChannel (telemetry : Bool) : String :=
  if telemetry then telemetryTopic else attributeTopic

/-- `PayloadSize - 1` computed in `size_t` arithmetic, as it appears in
the `measureJson(jsonBuffer) > PayloadSize - 1` guards. -/
def psMinusOne (P : Nat) : Nat := (P + (2 ^ 64 - 1)) % 2 ^ 64

/-- The serialization loop of `sendDataArray` (lines 381-386): feed each
record through `serializeKeyval`, aborting with failure on the first
record that reports one. -/
def serializeRecords : List Telemetry → JDoc → Option JDoc
  | [], d => some d
  | t :: rest, d =>
    match t.serializeKeyval d with
    | (d1, true) => serializeRecords rest d1
    | (_, false) => none

/-- `ThingsBoardSized::sendDataArray` (lines 372-396). `publish` is the
transport's `publish` capability (`PubSubClient::publish` via
`sendTelemetryJson` / `sendAttributeJSON`). -/
def sendDataArray (PayloadSize MaxFieldsAmt : Nat)
    (publish : String → String → Bool)
    (data : List Telemetry) (telemetry : Bool) : SendResult :=
  if MaxFieldsAmt < data.length then ⟨false, none⟩
  else
    match serializeRecords data (freshDoc MaxFieldsAmt) with
    | none => ⟨false, none⟩
    | some d =>
      if psMinusOne PayloadSize < measureJson d then ⟨false, none⟩
      else
        ⟨publish (sendChannel telemetry) d.root.serialize,
          some (sendChannel telemetry, d.root.serialize)⟩

/-- `ThingsBoardHttpSized::sendDataArray` (lines 499-523); identical
guards and loop, but the rendered payload goes to the HTTP POST path for
the configured token. `post path body` is the stateless transport round
trip (`sendTelemetryJson` / `sendAttributeJSON`, lines 439-457/477-495:
connect, POST, status check, stop). -/
def httpSendDataArray (PayloadSize MaxFieldsAmt : Nat) (token : String)
    (post : String → String → Bool)
    (data : List Telemetry) (telemetry : Bool) : SendResult :=
  if MaxFieldsAmt < data.length then ⟨false, none⟩
  else
    match serializeRecords data (freshDoc MaxFieldsAmt) with
    | none => ⟨false, none⟩
    | some d =>
      if psMinusOne PayloadSize < measureJson d then ⟨false, none⟩
      else
        ⟨post ("/api/v1/" ++ token ++ (if telemetry then "/telemetry" else "/attributes"))
            d.root.serialize,
          some ("/api/v1/" ++ token ++ (if telemetry then "/telemetry" else "/attributes"),
            d.root.serialize)⟩

/-- `ThingsBoardSized::sendKeyval` (lines 289-308): build one `Telemetry`
record, serialize it into a `JSON_OBJECT_SIZE(1)` document, apply the
same size guard, publish on the chosen channel. -/
def sendKeyval (PayloadSize : Nat) (publish : String → String → Bool)
    (key : Option String) (value : TValue) (telemetry : Bool) : SendResult :=
  match Telemetry.serializeKeyval ⟨key, value⟩ (freshDoc 1) with
  | (_, false) => ⟨false, none⟩
  | (d, true) =>
    if psMinusOne PayloadSize < measureJson d then ⟨false, none⟩
    else
      ⟨publish (sendChannel telemetry) d.root.serialize,
        some (sendChannel telemetry, d.root.serialize)⟩

/-- An `RPC_Callback` entry: method name and optional function pointer
(`m_cb` is null for a default-constructed callback). -/
structure RPC_Callback where
  m_name : String
  m_cb : Option (JVal → Telemetry)

/-- The dispatch loop of `process_message` (lines 333-346): first entry
with a non-null `m_cb` whose name compares equal to the method; entries
with a null `m_cb` are skipped before the name is compared. -/
def findCb : List RPC_Callback → String → Option (JVal → Telemetry)
  | [], _ => none
  | c :: rest, m =>
    match c.m_cb with
    | some f => if c.m_name == m then some f else findCb rest m
    | none => findCb rest m

/-- `const char* methodName = data["method"]` (line 321): non-null
exactly when the member exists and is a string. -/
def methodOf (data : JRoot) : Option String :=
  match data.member "method" with
  | some (JVal.jstr s) => some s
  | _ => none

/-- Observable outcome of `process_message`: the handler invocation it
performed (method name and the `data["params"]` variant passed), and the
publish call it performed (reply channel, rendered reply), if any. -/
structure ProcResult where
  invoked : Option (String × JVal)
  published : Option (String × String)
deriving DecidableEq

/-- The "Fill in response" block of `process_message` (lines 348-368):
serialize the reply record into a `JSON_OBJECT_SIZE(1)` document, drop it
on serialization failure or when the rendering exceeds the size guard,
otherwise publish the rendering on the topic with `request` replaced by
`response`. Returns the publish call performed, if any. -/
def replyPublish (PayloadSize : Nat) (topic : String) (r : Telemetry) :
    Option (String × String) :=
  match Telemetry.serializeKeyval r (freshDoc 1) with
  | (_, false) => none
  | (d, true) =>
    if psMinusOne PayloadSize < measureJson d then none
    else some (stringReplaceAll topic "request" "response", d.root.serialize)

/-- `ThingsBoardSized::process_message` (lines 311-369). `decoded` is the
result of `deserializeJson` on the raw payload (`none` on decode error).
A missing or non-text `method` drops the message. The first matching
callback runs on `data["params"]`, which is the null variant when the
member is absent. The reply record — default-constructed when no entry
matched, since the loop falls through into the response block — is then
handled by `replyPublish`. -/
def process_message (PayloadSize : Nat) (callbacks : List RPC_Callback)
    (topic : String) (decoded : Option JRoot) : ProcResult :=
  match decoded with
  | none => ⟨none, none⟩
  | some data =>
    match methodOf data with
    | none => ⟨none, none⟩
    | some methodName =>
      match findCb callbacks methodName with
      | some f =>
        let arg := (data.member "params").getD JVal.jnull
        ⟨some (methodName, arg), replyPublish PayloadSize topic (f arg)⟩
      | none => ⟨none, replyPublish PayloadSize topic ⟨none, TValue.tnone⟩⟩

/-- The fields of `ThingsBoardSized` the claims observe: the callback
registry and the subscribed flag. (The `PubSubClient` instance itself is
external transport state, reached only through the oracle results passed
to each operation.) -/
structure TBState where
  m_rpcCallbacks : List RPC_Callback
  m_subscribedInstance : Bool

/-- `RPC_Unsubscribe` (lines 278-281): clears the flag unconditionally,
then returns the transport's unsubscribe result. -/
def RPC_Unsubscribe (st : TBState) (transportUnsubscribe : Bool) : TBState × Bool :=
  (⟨st.m_rpcCallbacks, false⟩, transportUnsubscribe)

/-- `RPC_Subscribed` (lines 283-285). -/
def RPC_Subscribed (st : TBState) : Bool := st.m_subscribedInstance

/-- `RPC_Subscribe` (lines 260-276): rejected while subscribed; on
transport subscribe failure nothing changes; otherwise the registry is
wholesale replaced and the flag set. -/
def RPC_Subscribe (st : TBState) (callbacks : List RPC_Callback)
    (transportSubscribe : Bool) : TBState × Bool :=
  if st.m_subscribedInstance then (st, false)
  else if transportSubscribe then (⟨callbacks, true⟩, true)
  else (st, false)

/-- `connect` (lines 188-195): a null host or token fails immediately
with nothing touched; otherwise `RPC_Unsubscribe` runs first (its result
discarded), the server is set on the transport, and the transport-level
connect result is returned. `transportUnsubscribe` and
`transportConnect` are the transport oracles for the two calls. -/
def connect (st : TBState) (host access_token : Option String)
    (transportUnsubscribe transportConnect : Bool) : TBState × Bool :=
  match host, access_token with
  | some _, some _ =>
    ((RPC_Unsubscribe st transportUnsubscribe).1, transportConnect)
  | _, _ => (st, false)

/-- A transport oracle that accepts every publish; used for concrete
instantiations. -/
def pubTrue : String → String → Bool := fun _ _ => true

/-- A handler returning an anonymous boolean reply; used for concrete
instantiations. -/
def echoHandler : JVal → Telemetry := fun _ => ⟨none, TValue.tbool true⟩

/-- A handler returning the default (none) reply; used for concrete
instantiations. -/
def nopHandler : JVal → Telemetry := fun _ => ⟨none, TValue.tnone⟩

/-- `serializeKeyval` reports success on every record: with a key the
assignment's flag is discarded, without one the scalar `set` succeeds. -/
theorem serializeKeyval_snd (t : Telemetry) (d : JDoc) :
    (Telemetry.serializeKeyval t d).2 = true := by
  rcases t with ⟨k, v⟩
  cases k <;> cases v <;> rfl

/-- In the range of template arguments a `size_t` can hold, the
`PayloadSize - 1` of the guards is ordinary subtraction. -/
theorem psMinusOne_eq (P : Nat) (h1 : 1 ≤ P) (h2 : P < 2 ^ 64) :
    psMinusOne P = P - 1 := by
  have e : (2 : Nat) ^ 64 = 18446744073709551616 := by norm_num
  unfold psMinusOne
  rw [e] at h2 ⊢
  have h3 : P + (18446744073709551616 - 1) = (P - 1) + 18446744073709551616 := by omega
  rw [h3, Nat.add_mod_right, Nat.mod_eq_of_lt (by omega)]

/-- Claim C10: after any call to `RPC_Unsubscribe`, `RPC_Subscribed`
returns false regardless of the transport-level unsubscribe result: the
flag is cleared unconditionally before the transport call, while the
function's return value is the transport's unsubscribe result. -/
theorem C10_unsubscribe_clears_flag (st : TBState) (r : Bool) :
    RPC_Subscribed (RPC_Unsubscribe st r).1 = false ∧ (RPC_Unsubscribe st r).2 = r :=
  ⟨rfl, rfl⟩

/-- Claim C4: an aggregated send of more than `MaxFields` records fails
on both backends without any transport publish or post call. -/
theorem C4_field_count_guard (P M : Nat) (publish post : String → String → Bool)
    (token : String) (data : List Telemetry) (telemetry : Bool)
    (h : M < data.length) :
    sendDataArray P M publish data telemetry = ⟨false, none⟩ ∧
    httpSendDataArray P M token post data telemetry = ⟨false, none⟩ := by
  constructor
  · unfold sendDataArray
    rw [if_pos h]
  · unfold httpSendDataArray
    rw [if_pos h]

/-- Claim C4 witness: three records against a two-field budget are
rejected by both backends with no transport call. -/
theorem C4_field_count_guard_witness :
    2 < ([⟨some "a", TValue.tint 1⟩, ⟨some "b", TValue.tint 2⟩,
          ⟨some "c", TValue.tint 3⟩] : List Telemetry).length ∧
    (sendDataArray 64 2 pubTrue
        [⟨some "a", TValue.tint 1⟩, ⟨some "b", TValue.tint 2⟩, ⟨some "c", TValue.tint 3⟩]
        true = ⟨false, none⟩ ∧
      httpSendDataArray 64 2 "token" pubTrue
        [⟨some "a", TValue.tint 1⟩, ⟨some "b", TValue.tint 2⟩, ⟨some "c", TValue.tint 3⟩]
        true = ⟨false, none⟩) :=
  ⟨by decide, C4_field_count_guard 64 2 pubTrue pubTrue "token"
    [⟨some "a", TValue.tint 1⟩, ⟨some "b", TValue.tint 2⟩, ⟨some "c", TValue.tint 3⟩]
    true (by decide)⟩

/-- Claim C8: an inbound RPC message that decodes as JSON but has no
text `method` member is dropped: no handler invoked, nothing published. -/
theorem C8_missing_method_drops (P : Nat) (cbs : List RPC_Callback) (topic : String)
    (data : JRoot) (hm : methodOf data = none) :
    process_message P cbs topic (some data) = ⟨none, none⟩ := by
  unfold process_message
  simp only [hm]

/-- Claim C8 witness: a message whose `method` member exists but is a
number (so `data["method"]` reads as null text) is dropped. -/
theorem C8_missing_method_witness :
    process_message 64 [⟨"go", some echoHandler⟩] "v1/devices/me/rpc/request/3"
        (some (JRoot.obj [("params", JVal.jint 1), ("method", JVal.jint 5)]))
      = ⟨none, none⟩ :=
  C8_missing_method_drops 64 [⟨"go", some echoHandler⟩] "v1/devices/me/rpc/request/3"
    (JRoot.obj [("params", JVal.jint 1), ("method", JVal.jint 5)]) (by decide)

/-- Claim C1 counterexample: with no callback registered, a message whose
method matches nothing still produces a publish call on the reply
channel — the default null reply is serialized and published, refuting
"performs no publish call on the reply channel for that message". -/
theorem C1_counterexample :
    (process_message 64 [] "v1/devices/me/rpc/request/7"
        (some (JRoot.obj [("method", JVal.jstr "doThing")]))).invoked = none ∧
    (process_message 64 [] "v1/devices/me/rpc/request/7"
        (some (JRoot.obj [("method", JVal.jstr "doThing")]))).published
      = some ("v1/devices/me/rpc/response/7", "null") := by
  exact ⟨by decide, by decide⟩

/-- Claim C1 (amended): for every inbound RPC message whose decoded
`method` matches no registered callback entry, no handler is invoked, but
the dispatcher still publishes: the default null reply is rendered and
published on the derived reply channel (whenever the 4-byte rendering
passes the size guard, `4 ≤ PayloadSize - 1`). -/
theorem C1_amended_no_match_still_publishes (P : Nat) (cbs : List RPC_Callback)
    (topic : String) (data : JRoot) (m : String)
    (hm : methodOf data = some m) (hfind : findCb cbs m = none)
    (hsize : 4 ≤ psMinusOne P) :
    process_message P cbs topic (some data)
      = ⟨none, some (stringReplaceAll topic "request" "response", "null")⟩ := by
  unfold process_message
  simp only [hm, hfind]
  unfold replyPublish
  have h4 : measureJson (freshDoc 1) = 4 := rfl
  have hlt : ¬ (psMinusOne P < measureJson (freshDoc 1)) := by omega
  simp only [Telemetry.serializeKeyval, hlt, if_false]
  rfl

/-- Claim C1 (amended) witness: a registered but non-matching callback,
a concrete topic and message; the null reply is published and no handler
runs. -/
theorem C1_amended_witness :
    process_message 64 [⟨"other", some nopHandler⟩] "v1/devices/me/rpc/request/5"
        (some (JRoot.obj [("method", JVal.jstr "doThing")]))
      = ⟨none, some ("v1/devices/me/rpc/response/5", "null")⟩ := by
  have h := C1_amended_no_match_still_publishes 64 [⟨"other", some nopHandler⟩]
    "v1/devices/me/rpc/request/5" (JRoot.obj [("method", JVal.jstr "doThing")])
    "doThing" (by decide) rfl (by decide)
  exact h.trans (by decide)

/-- Claim C7: an inbound RPC message whose `method` matches a registered
handler but which has no `params` member still invokes that handler, and
the argument passed is the explicit null variant. -/
theorem C7_missing_params_null (P : Nat) (cbs : List RPC_Callback) (topic : String)
    (data : JRoot) (m : String) (f : JVal → Telemetry)
    (hm : methodOf data = some m) (hf : findCb cbs m = some f)
    (hp : data.member "params" = none) :
    (process_message P cbs topic (some data)).invoked = some (m, JVal.jnull) := by
  unfold process_message
  simp only [hm, hf, hp]
  rfl

/-- Claim C7 witness: a handler registered for `"go"` receives the null
variant when the message carries no `params` member. -/
theorem C7_missing_params_witness :
    (process_message 64 [⟨"go", some echoHandler⟩] "v1/devices/me/rpc/request/3"
        (some (JRoot.obj [("method", JVal.jstr "go")]))).invoked
      = some ("go", JVal.jnull) :=
  C7_missing_params_null 64 [⟨"go", some echoHandler⟩] "v1/devices/me/rpc/request/3"
    (JRoot.obj [("method", JVal.jstr "go")]) "go" echoHandler (by decide) rfl (by decide)

/-- Claim C3 counterexample: on a full one-slot table holding member
`"a"`, assigning the new key `"b"` reports failure at the JSON layer and
leaves the document unchanged, yet `serializeKeyval` still returns
success — refuting "returns failure exactly when the assignment failed". -/
theorem C3_counterexample :
    (JDoc.assign ⟨1, JRoot.obj [("a", JVal.jint 1)]⟩ "b" (JVal.jint 2)).2 = false ∧
    Telemetry.serializeKeyval ⟨some "b", TValue.tint 2⟩ ⟨1, JRoot.obj [("a", JVal.jint 1)]⟩
      = (⟨1, JRoot.obj [("a", JVal.jint 1)]⟩, true) := by
  exact ⟨by decide, by decide⟩

/-- Claim C3 (amended): for every Value record whose key is present,
`serializeKeyval` returns success unconditionally — the success flag of
the underlying field assignment is discarded, so memory exhaustion in
the JSON encoding layer (e.g. table full) is not reported. -/
theorem C3_amended_key_present_always_succeeds (key : String) (v : TValue) (d : JDoc) :
    (Telemetry.serializeKeyval ⟨some key, v⟩ d).2 = true := by
  cases v <;> rfl

/-- Claim C2 counterexample: the inbound topic
`v1/devices/me/rpc/request/request` (its trailing request-id segment is
the literal text `request`, matched by the `+` wildcard of the subscribe
filter) is answered on `v1/devices/me/rpc/response/response`: the code
replaces every occurrence, while first-occurrence-only substitution
(modelled by `replaceFirstSpec`) would keep the trailing segment
byte-for-byte unchanged. -/
theorem C2_counterexample :
    (process_message 64 [] "v1/devices/me/rpc/request/request"
        (some (JRoot.obj [("method", JVal.jstr "m")]))).published
      = some ("v1/devices/me/rpc/response/response", "null") ∧
    replaceFirstSpec "v1/devices/me/rpc/request/request" "request" "response"
      = "v1/devices/me/rpc/response/request" ∧
    ("v1/devices/me/rpc/response/response" : String) ≠ "v1/devices/me/rpc/response/request" := by
  exact ⟨by decide, by decide, by decide⟩

/-- Whenever the response block publishes, the channel it publishes on is
the topic with every occurrence of `request` replaced by `response`. -/
theorem replyPublish_channel (P : Nat) (topic : String) (r : Telemetry) (ch pl : String)
    (h : replyPublish P topic r = some (ch, pl)) :
    ch = stringReplaceAll topic "request" "response" := by
  unfold replyPublish at h
  rcases hk : Telemetry.serializeKeyval r (freshDoc 1) with ⟨d, b⟩
  rw [hk] at h
  cases b
  · exact absurd h (by simp)
  · dsimp only at h
    by_cases hlt : psMinusOne P < measureJson d
    · rw [if_pos hlt] at h
      exact absurd h (by simp)
    · rw [if_neg hlt] at h
      simp only [Option.some.injEq, Prod.mk.injEq] at h
      exact h.1.symm

/-- Claim C2 (amended): the reply channel is obtained by replacing every
non-overlapping occurrence of the request-marker segment `request` in the
inbound channel identifier with `response` (Arduino `String::replace`
replaces all occurrences, not only the first); identifiers containing a
single occurrence are unaffected by the difference, and in particular
input `v1/devices/me/rpc/request/42` yields
`v1/devices/me/rpc/response/42`. -/
theorem C2_amended_replace_all (P : Nat) (cbs : List RPC_Callback) (topic : String)
    (decoded : Option JRoot) (ch pl : String)
    (h : (process_message P cbs topic decoded).published = some (ch, pl)) :
    ch = stringReplaceAll topic "request" "response" ∧
    stringReplaceAll "v1/devices/me/rpc/request/42" "request" "response"
      = "v1/devices/me/rpc/response/42" := by
  refine ⟨?_, by decide⟩
  unfold process_message at h
  split at h
  · exact absurd h (by simp)
  · split at h
    · exact absurd h (by simp)
    · split at h
      · dsimp only at h
        exact replyPublish_channel P topic _ ch pl h
      · dsimp only at h
        exact replyPublish_channel P topic ⟨none, TValue.tnone⟩ ch pl h

/-- Claim C2 (amended) witness: a concrete dispatch on topic
`v1/devices/me/rpc/request/9` publishes on the channel computed by
`stringReplaceAll`, and the single-occurrence example holds. -/
theorem C2_amended_witness :
    ("v1/devices/me/rpc/response/9" : String)
        = stringReplaceAll "v1/devices/me/rpc/request/9" "request" "response" ∧
    stringReplaceAll "v1/devices/me/rpc/request/42" "request" "response"
      = "v1/devices/me/rpc/response/42" :=
  C2_amended_replace_all 64 [] "v1/devices/me/rpc/request/9"
    (some (JRoot.obj [("method", JVal.jstr "m")]))
    "v1/devices/me/rpc/response/9" "null" (by decide)

/-- Claim C5: the payload-size boundary is exact on both send paths. For
`sendDataArray` and for `sendKeyval`: a rendering measured at
`PayloadSize - 1` bytes passes the guard and is handed in full to the
transport, the operation returning the transport's result; a rendering
measured at `PayloadSize` bytes or more makes the operation fail with no
transport call. -/
theorem C5_payload_boundary (P M : Nat) (publish : String → String → Bool)
    (data : List Telemetry) (telemetry : Bool) (d : JDoc)
    (key : Option String) (v : TValue)
    (h1 : 1 ≤ P) (h2 : P < 2 ^ 64) (hM : data.length ≤ M)
    (hser : serializeRecords data (freshDoc M) = some d) :
    ((measureJson d = P - 1) →
      sendDataArray P M publish data telemetry
        = ⟨publish (sendChannel telemetry) d.root.serialize,
            some (sendChannel telemetry, d.root.serialize)⟩) ∧
    ((P ≤ measureJson d) →
      sendDataArray P M publish data telemetry = ⟨false, none⟩) ∧
    ((measureJson (Telemetry.serializeKeyval ⟨key, v⟩ (freshDoc 1)).1 = P - 1) →
      sendKeyval P publish key v telemetry
        = ⟨publish (sendChannel telemetry)
              (Telemetry.serializeKeyval ⟨key, v⟩ (freshDoc 1)).1.root.serialize,
            some (sendChannel telemetry,
              (Telemetry.serializeKeyval ⟨key, v⟩ (freshDoc 1)).1.root.serialize)⟩) ∧
    ((P ≤ measureJson (Telemetry.serializeKeyval ⟨key, v⟩ (freshDoc 1)).1) →
      sendKeyval P publish key v telemetry = ⟨false, none⟩) := by
  have hps : psMinusOne P = P - 1 := psMinusOne_eq P h1 h2
  have hnM : ¬ (M < data.length) := by omega
  rcases hk : Telemetry.serializeKeyval ⟨key, v⟩ (freshDoc 1) with ⟨kd, b⟩
  have hb : b = true := by
    have hs := serializeKeyval_snd ⟨key, v⟩ (freshDoc 1)
    rw [hk] at hs
    exact hs
  subst hb
  refine ⟨?_, ?_, ?_, ?_⟩
  · intro hm1
    unfold sendDataArray
    rw [if_neg hnM, hser]
    dsimp only
    rw [hps, hm1, if_neg (lt_irrefl _)]
  · intro hm2
    unfold sendDataArray
    rw [if_neg hnM, hser]
    dsimp only
    rw [hps, if_pos (by omega)]
  · intro hm3
    have hm3k : measureJson kd = P - 1 := hm3
    unfold sendKeyval
    rw [hk]
    dsimp only
    rw [hps, hm3k, if_neg (lt_irrefl _)]
  · intro hm4
    have hm4k : P ≤ measureJson kd := hm4
    unfold sendKeyval
    rw [hk]
    dsimp only
    rw [hps, if_pos (by omega)]

/-- Claim C5 witness: the object with one integer field renders as 7
bytes; with `PayloadSize` 8 the aggregated path publishes it in full,
with `PayloadSize` 7 both the aggregated and the single-key path reject
with no transport call. -/
theorem C5_payload_boundary_witness :
    sendDataArray 8 8 pubTrue [⟨some "k", TValue.tint 1⟩] true
      = ⟨pubTrue (sendChannel true) (JDoc.mk 8 (JRoot.obj [("k", JVal.jint 1)])).root.serialize,
          some (sendChannel true, (JDoc.mk 8 (JRoot.obj [("k", JVal.jint 1)])).root.serialize)⟩ ∧
    sendDataArray 7 8 pubTrue [⟨some "k", TValue.tint 1⟩] true = ⟨false, none⟩ ∧
    sendKeyval 7 pubTrue (some "k") (TValue.tint 1) true = ⟨false, none⟩ := by
  refine ⟨?_, ?_, ?_⟩
  · exact (C5_payload_boundary 8 8 pubTrue [⟨some "k", TValue.tint 1⟩] true
      ⟨8, JRoot.obj [("k", JVal.jint 1)]⟩ (some "k") (TValue.tint 1)
      (by decide) (by norm_num) (by decide) (by decide)).1 (by decide)
  · exact (C5_payload_boundary 7 8 pubTrue [⟨some "k", TValue.tint 1⟩] true
      ⟨8, JRoot.obj [("k", JVal.jint 1)]⟩ (some "k") (TValue.tint 1)
      (by decide) (by norm_num) (by decide) (by decide)).2.1 (by decide)
  · exact (C5_payload_boundary 7 8 pubTrue [⟨some "k", TValue.tint 1⟩] true
      ⟨8, JRoot.obj [("k", JVal.jint 1)]⟩ (some "k") (TValue.tint 1)
      (by decide) (by norm_num) (by decide) (by decide)).2.2.2 (by decide)

/-- Claim C6 counterexample: take a subscribed client, a valid host and
token, and a transport-level connect failure. The call returns false,
yet the subscribed flag — true before the call — reads false afterwards:
the RPC subscription state is not preserved by the failed connect. -/
theorem C6_counterexample :
    (connect ⟨[], true⟩ (some "host") (some "token") true false).2 = false ∧
    RPC_Subscribed ⟨[], true⟩ = true ∧
    RPC_Subscribed (connect ⟨[], true⟩ (some "host") (some "token") true false).1 = false :=
  ⟨rfl, rfl, rfl⟩

/-- Claim C6 (amended): a failed `connect` never touches the handler
registry, and the whole state is unchanged when the failure is the
missing-host-or-token check; but with a valid host and token the
subscribed flag has been cleared unconditionally before the transport
connect was attempted, so after a transport-level failure the flag reads
false rather than its prior value. -/
theorem C6_amended_connect_failure (st : TBState) (host token : Option String)
    (u c : Bool) (h : (connect st host token u c).2 = false) :
    (connect st host token u c).1.m_rpcCallbacks = st.m_rpcCallbacks ∧
    ((host = none ∨ token = none) → (connect st host token u c).1 = st) ∧
    (host ≠ none → token ≠ none →
      RPC_Subscribed (connect st host token u c).1 = false) := by
  rcases host with _ | a
  · exact ⟨rfl, fun _ => rfl, fun hh _ => absurd rfl hh⟩
  · rcases token with _ | b
    · exact ⟨rfl, fun _ => rfl, fun _ ht => absurd rfl ht⟩
    · refine ⟨rfl, ?_, fun _ _ => rfl⟩
      intro hor
      rcases hor with h1 | h1 <;> exact absurd h1 (by simp)

/-- Claim C6 (amended) witness: concrete failed connect on a subscribed
state with a valid host and token. -/
theorem C6_amended_witness :
    (connect ⟨[], true⟩ (some "h") (some "t") true false).1.m_rpcCallbacks
        = (TBState.mk [] true).m_rpcCallbacks ∧
    ((some "h" = (none : Option String) ∨ some "t" = (none : Option String)) →
      (connect ⟨[], true⟩ (some "h") (some "t") true false).1 = ⟨[], true⟩) ∧
    (some "h" ≠ (none : Option String) → some "t" ≠ (none : Option String) →
      RPC_Subscribed (connect ⟨[], true⟩ (some "h") (some "t") true false).1 = false) :=
  C6_amended_connect_failure ⟨[], true⟩ (some "h") (some "t") true false rfl

/-- Claim C9 counterexample: with zero records the document root stays
null, so the rendering is `null` (4 bytes), not the 2-byte empty object:
at `PayloadSize = 3` the size check fails and nothing is sent, and at
`PayloadSize = 64` the transport receives the payload `null`. -/
theorem C9_counterexample :
    sendDataArray 3 8 pubTrue [] true = ⟨false, none⟩ ∧
    (sendDataArray 64 8 pubTrue [] true).published = some (telemetryTopic, "null") :=
  ⟨by decide, by decide⟩

/-- Claim C9 (amended): a send of zero records is not rejected by the
`MaxFields` check, the loop serializes nothing, the still-null document
renders as `null` (4 bytes), and — provided `PayloadSize` is at least 5
so the 4-byte rendering passes the size check — the payload `null` is
handed to the transport and the transport's publish result returned. -/
theorem C9_amended_empty_send (P M : Nat) (publish : String → String → Bool)
    (telemetry : Bool) (h1 : 5 ≤ P) (h2 : P < 2 ^ 64) :
    sendDataArray P M publish [] telemetry
      = ⟨publish (sendChannel telemetry) "null", some (sendChannel telemetry, "null")⟩ := by
  have hps : psMinusOne P = P - 1 := psMinusOne_eq P (by omega) h2
  unfold sendDataArray
  rw [if_neg (by simp)]
  rw [show serializeRecords [] (freshDoc M) = some (freshDoc M) from rfl]
  dsimp only
  have h4 : measureJson (freshDoc M) = 4 := rfl
  rw [hps, h4, if_neg (by omega)]
  rfl

/-- Claim C9 (amended) witness: the empty send at `PayloadSize = 64`
publishes `null` on the telemetry channel. -/
theorem C9_amended_witness :
    sendDataArray 64 8 pubTrue [] true
      = ⟨pubTrue (sendChannel true) "null", some (sendChannel true, "null")⟩ :=
  C9_amended_empty_send 64 8 pubTrue true (by decide) (by norm_num)

end TB
